import Mathlib

/-
  Verification development for the CallerGuy browser voice-call trainer.

  The definitions below are a shallow embedding of the real-time client
  (services/liveClient.ts, class LiveClient), the capture callback, the
  grading service (services/geminiService.ts, gradeCall), and the call
  orchestration layer (components/ActiveCall.tsx and App.tsx).  Times are
  modelled as rationals, audio-sample amplitudes as reals, and the fallible
  external operations (AudioContext construction, getUserMedia, the remote
  live session, the grading request) as explicit environment data.
-/

namespace CallerGuy

/-- Model of a MediaStreamTrack: the mute flag toggles enabled, disconnect
stops the track. -/
structure Track where
  enabled : Bool
  stopped : Bool
deriving DecidableEq

/-- Model of an AudioBufferSourceNode that has been scheduled: its start
time, buffer duration, and whether it is still playing. -/
structure Source where
  start : ℚ
  duration : ℚ
  playing : Bool
deriving DecidableEq

/-- Model of an AudioContext; close sets closed. -/
structure AudioCtx where
  closed : Bool
deriving DecidableEq

/-- Model of the remote live session object returned by a resolved connect
promise. -/
structure SessionHandle where
  closed : Bool
deriving DecidableEq

/-- Outcome of the in-flight sessionPromise: resolved with a session, or
rejected (failed connection). -/
inductive SessionOutcome where
  | resolved (session : SessionHandle)
  | rejected
deriving DecidableEq

/-- The mutable fields of class LiveClient (services/liveClient.ts). -/
structure ClientState where
  inputAudioContext : Option AudioCtx
  outputAudioContext : Option AudioCtx
  nextStartTime : ℚ
  stream : Option (List Track)
  sessionPromise : Option SessionOutcome
  scriptProcessor : Option Unit
  sourceNode : Option Unit
  isConnected : Bool
  audioQueue : List Source
deriving DecidableEq

/-- The field initialisers of LiveClient: contexts, stream, nodes and
promise null, nextStartTime 0, not connected, empty queue. -/
def initialState : ClientState :=
  { inputAudioContext := none, outputAudioContext := none, nextStartTime := 0,
    stream := none, sessionPromise := none, scriptProcessor := none,
    sourceNode := none, isConnected := false, audioQueue := [] }

/-- A LiveServerMessage as dispatched by LiveClient.handleMessage: optional
input and output transcription text, optional inbound audio (modelled by the
duration of the decoded buffer), the interrupted flag, and the value of
outputAudioContext.currentTime while this handler runs. -/
structure ServerMessage where
  inputTranscription : Option String
  outputTranscription : Option String
  audioDuration : Option ℚ
  interrupted : Bool
  now : ℚ
deriving DecidableEq

/-- The audio branch of handleMessage (drift correction and scheduling):
if the cursor has fallen behind the clock it is lifted to the clock, the
buffer is scheduled to start at the cursor, the source is pushed onto
audioQueue, and the cursor advances by the buffer duration. -/
def scheduleChunk (s : ClientState) (now dur : ℚ) : ClientState × Source :=
  let cursor := if s.nextStartTime < now then now else s.nextStartTime
  let src : Source := { start := cursor, duration := dur, playing := true }
  ({ s with nextStartTime := cursor + dur, audioQueue := s.audioQueue ++ [src] }, src)

/-- The audio phase of handleMessage: schedule the inbound chunk when the
message carries one, otherwise leave the state alone. -/
def audioPhase (s : ClientState) (m : ServerMessage) : ClientState × Option Source :=
  match m.audioDuration with
  | none => (s, none)
  | some dur => ((scheduleChunk s m.now dur).1, some (scheduleChunk s m.now dur).2)

/-- The transcript branch of handleMessage: forward input transcription
tagged as user, then output transcription tagged as persona. -/
def transcriptEvents (m : ServerMessage) : List (String × Bool) :=
  (match m.inputTranscription with
   | some t => [(t, true)]
   | none => []) ++
  (match m.outputTranscription with
   | some t => [(t, false)]
   | none => [])

/-- What one run of handleMessage produces: the new client state, the
forwarded transcript callbacks, the source scheduled by the audio branch
(when any), and the sources force-stopped by the interruption branch. -/
structure HandleResult where
  state : ClientState
  transcripts : List (String × Bool)
  scheduled : Option Source
  stopped : List Source
deriving DecidableEq

/-- LiveClient.handleMessage: guard on outputAudioContext, forward
transcripts, schedule inbound audio, then on interruption stop every queued
source, clear the queue and reset the cursor to the current clock. -/
def handleMessage (s : ClientState) (m : ServerMessage) : HandleResult :=
  match s.outputAudioContext with
  | none => { state := s, transcripts := [], scheduled := none, stopped := [] }
  | some _ =>
    let ts := transcriptEvents m
    let ap := audioPhase s m
    if m.interrupted then
      { state := { ap.1 with audioQueue := [], nextStartTime := m.now },
        transcripts := ts, scheduled := ap.2,
        stopped := ap.1.audioQueue.map fun src => { src with playing := false } }
    else
      { state := ap.1, transcripts := ts, scheduled := ap.2, stopped := [] }

/-- Fold handleMessage over a sequence of inbound messages, collecting the
sources that got scheduled, in order. -/
def runMessages : ClientState → List ServerMessage → ClientState × List Source
  | s, [] => (s, [])
  | s, m :: rest =>
    ((runMessages (handleMessage s m).state rest).1,
     (handleMessage s m).scheduled.toList ++ (runMessages (handleMessage s m).state rest).2)

/-- LiveClient.setMute: if a stream is held, set enabled to the negation of
the mute flag on every audio track; otherwise do nothing. -/
def setMute (s : ClientState) (mute : Bool) : ClientState :=
  match s.stream with
  | none => s
  | some tracks => { s with stream := some (tracks.map fun t => { t with enabled := !mute }) }

/-- The side effects performed by one run of LiveClient.disconnect. -/
structure DisconnectLog where
  stoppedSources : List Source
  sourceNodeDisconnected : Bool
  scriptProcessorDisconnected : Bool
  stoppedTracks : List Track
  sessionCloseCalled : Bool
  inputCtxCloseCalled : Bool
  outputCtxCloseCalled : Bool
deriving DecidableEq

/-- LiveClient.disconnect, step by step as in the source: stop and clear
the audio queue, disconnect and null the source node and script processor,
stop every stream track and null the stream, await the session promise
(a rejection is swallowed by the surrounding try) and close a resolved
session, close each still-open audio context (errors swallowed) and null
them, and clear isConnected.  Total on every state. -/
def disconnect (s : ClientState) : ClientState × DisconnectLog :=
  let stoppedSources := s.audioQueue.map fun src => { src with playing := false }
  let s1 := { s with audioQueue := [] }
  let sourceNodeDisconnected := s1.sourceNode.isSome
  let s2 := { s1 with sourceNode := none }
  let scriptProcessorDisconnected := s2.scriptProcessor.isSome
  let s3 := { s2 with scriptProcessor := none }
  let stoppedTracks := (s3.stream.getD []).map fun t => { t with stopped := true }
  let s4 := { s3 with stream := none }
  let sessionCloseCalled :=
    match s4.sessionPromise with
    | some (SessionOutcome.resolved _) => true
    | _ => false
  let s5 := { s4 with sessionPromise := none }
  let inputCtxCloseCalled :=
    match s5.inputAudioContext with
    | some ctx => !ctx.closed
    | none => false
  let s6 := { s5 with inputAudioContext := none }
  let outputCtxCloseCalled :=
    match s6.outputAudioContext with
    | some ctx => !ctx.closed
    | none => false
  let s7 := { s6 with outputAudioContext := none, isConnected := false }
  (s7, { stoppedSources, sourceNodeDisconnected, scriptProcessorDisconnected,
         stoppedTracks, sessionCloseCalled, inputCtxCloseCalled, outputCtxCloseCalled })

/-- The failure surfaced by LiveClient.connect: AudioContext unsupported,
microphone permission denied, or remote session rejection. -/
inductive ConnectError where
  | noAudioContext
  | micDenied
  | sessionRejected
deriving DecidableEq

/-- The resource-acquiring operations LiveClient.connect performs, in
order. -/
inductive AcquireStep where
  | createAudioContexts
  | getUserMedia
  | liveConnect
deriving DecidableEq

/-- Environment of one connect attempt: which external operations succeed,
and the tracks of the granted microphone stream. -/
structure ConnectEnv where
  audioContextSupported : Bool
  micGranted : Bool
  micTracks : List Track
  sessionAccepted : Bool
deriving DecidableEq

/-- LiveClient.connect: no-op when already connected; otherwise create both
audio contexts, request the microphone (rethrowing denial), open the live
session and await it (rethrowing rejection, with the rejected promise still
stored), and mark connected on success.  Returns the post-call state, the
acquisition steps performed, and the surfaced error when any.  Note the
source releases nothing on the failure paths. -/
def connect (s : ClientState) (env : ConnectEnv) :
    ClientState × List AcquireStep × Option ConnectError :=
  if s.isConnected then (s, [], none)
  else if !env.audioContextSupported then (s, [], some ConnectError.noAudioContext)
  else
    let s1 := { s with inputAudioContext := some { closed := false },
                       outputAudioContext := some { closed := false } }
    if !env.micGranted then
      (s1, [AcquireStep.createAudioContexts, AcquireStep.getUserMedia],
       some ConnectError.micDenied)
    else
      let s2 := { s1 with stream := some env.micTracks }
      if !env.sessionAccepted then
        ({ s2 with sessionPromise := some SessionOutcome.rejected },
         [AcquireStep.createAudioContexts, AcquireStep.getUserMedia, AcquireStep.liveConnect],
         some ConnectError.sessionRejected)
      else
        ({ s2 with sessionPromise := some (SessionOutcome.resolved { closed := false }),
                   isConnected := true },
         [AcquireStep.createAudioContexts, AcquireStep.getUserMedia, AcquireStep.liveConnect],
         none)

/-- All owned resources of a client state are gone. -/
def releasedAll (s : ClientState) : Prop :=
  s.inputAudioContext = none ∧ s.outputAudioContext = none ∧ s.stream = none ∧
  s.sessionPromise = none ∧ s.sourceNode = none ∧ s.scriptProcessor = none ∧
  s.audioQueue = [] ∧ s.isConnected = false

instance (s : ClientState) : Decidable (releasedAll s) := by
  unfold releasedAll; infer_instance

/-- The connection status tracked by ActiveCall. -/
inductive CallStatus where
  | connecting
  | connected
  | error
deriving DecidableEq

/-- ActiveCall.startCall: throw before touching the client when the API key
is missing, otherwise run connect on a fresh client; the catch block only
records the error status and does not dispose of the partially-acquired
client. -/
def startCall (apiKeyPresent : Bool) (env : ConnectEnv) : CallStatus × Option ClientState :=
  if !apiKeyPresent then (CallStatus.error, none)
  else if (connect initialState env).2.2.isSome then
    (CallStatus.error, some (connect initialState env).1)
  else
    (CallStatus.connected, some (connect initialState env).1)

/-! Capture pipeline: the onaudioprocess callback of the script processor,
lines 105 to 131 of the LiveClient source. -/

/-- Root mean square of one captured frame, as computed by the capture
callback: sum the squared samples, divide by the frame length, take the
square root. -/
noncomputable def rms (frame : List ℝ) : ℝ :=
  Real.sqrt ((frame.map fun x => x * x).sum / (frame.length : ℝ))

/-- The visualizer side of the capture callback: when the frame RMS exceeds
the 0.01 noise floor, report min(1, rms * 5); otherwise report nothing. -/
noncomputable def captureVisualizerLevel (frame : List ℝ) : Option ℝ :=
  if rms frame > 1 / 100 then some (min 1 (rms frame * 5)) else none

/-! Orchestration layer: types.ts, geminiService.ts and the App and
ActiveCall components. -/

/-- The UI language (types.ts). -/
inductive Language where
  | en
  | ja
deriving DecidableEq

/-- A persona record (types.ts). -/
structure Persona where
  id : String
  name : String
  role : String
  company : String
  difficulty : String
  description : String
  objections : List String
  systemInstruction : String
  avatarUrl : String
deriving DecidableEq

/-- One rubric line of the grading result (types.ts). -/
structure RubricItem where
  category : String
  score : ℤ
  feedback : String
deriving DecidableEq

/-- What gradeCall resolves with. -/
structure GradeResult where
  score : ℤ
  rubric : List RubricItem
  summary : String
deriving DecidableEq

/-- The fields gradeCall reads off the parsed JSON response; each may be
absent. -/
structure ParsedGrade where
  score : Option ℤ
  summary : Option String
  rubric : Option (List RubricItem)

/-- Environment of one grading request: the API key if configured, the
request outcome (an error, or a response whose text field may be absent),
and the behaviour of JSON.parse on the response text (none models a parse
exception). -/
structure GradingEnv where
  apiKey : Option String
  response : Except Unit (Option String)
  parse : String → Option ParsedGrade

/-- The literal empty JSON object text substituted for an absent response
text. -/
def emptyJsonObject : String := "\x7b\x7d"

/-- The expression response.text or-else the empty object literal: an
absent or empty text falls back to the empty JSON object. -/
def responseTextOrEmpty (text : Option String) : String :=
  match text with
  | none => emptyJsonObject
  | some t => if t = "" then emptyJsonObject else t

/-- The value returned by the catch branch of gradeCall: neutral score 50,
fixed summary, one System Error rubric line. -/
def gradingErrorResult : GradeResult :=
  { score := 50,
    summary := "Error grading call. Please try again.",
    rubric := [{ category := "System Error", score := 0,
                 feedback := "Could not analyze transcript." }] }

/-- geminiService.gradeCall: throw on a missing API key, send the request,
parse the response text, and default each absent field; any thrown error is
caught and replaced by gradingErrorResult. -/
def gradeCall (env : GradingEnv) (transcript : String) (persona : Persona)
    (lang : Language) : GradeResult :=
  match env.apiKey with
  | none => gradingErrorResult
  | some _ =>
    match env.response with
    | Except.error _ => gradingErrorResult
    | Except.ok text =>
      match env.parse (responseTextOrEmpty text) with
      | none => gradingErrorResult
      | some result =>
        { score := result.score.getD 0,
          rubric := result.rubric.getD [],
          summary := result.summary.getD "No summary available." }

/-- Whether a grading environment makes the call fail: missing API key,
request error, or unparseable response text. -/
def gradingFailed (env : GradingEnv) : Bool :=
  match env.apiKey with
  | none => true
  | some _ =>
    match env.response with
    | Except.error _ => true
    | Except.ok text => (env.parse (responseTextOrEmpty text)).isNone

/-- Does pat occur at the head of s. -/
def matchesAt : List Char → List Char → Bool
  | [], _ => true
  | _ :: _, [] => false
  | p :: ps, c :: cs => p == c && matchesAt ps cs

/-- Does pat occur anywhere in s. -/
def containsList : List Char → List Char → Bool
  | [], pat => pat.isEmpty
  | c :: rest, pat => matchesAt pat (c :: rest) || containsList rest pat

/-- The JavaScript text.includes(pat) substring test. -/
def includes (s pat : String) : Bool := containsList s.toList pat.toList

/-- The in-band end-of-call marker watched for in persona transcripts. -/
def endCallMarker : String := "[[END_CALL]]"

/-- The fixed delay, in milliseconds, between detecting the marker and
hanging up (the setTimeout in the onTranscript callback). -/
def endCallDelayMs : ℕ := 3000

/-- The ActiveCall component state the onTranscript callback touches. -/
structure ActiveCallState where
  mounted : Bool
  transcriptAcc : String
deriving DecidableEq

/-- The onTranscript callback of ActiveCall: when still mounted, append the
speaker-tagged line to the accumulated transcript, and when a persona-side
line contains the end-of-call marker, schedule hang-up after the fixed
delay.  Returns the new state and the scheduled delay, when any. -/
def onTranscript (st : ActiveCallState) (personaName : String) (text : String)
    (isUser : Bool) : ActiveCallState × Option ℕ :=
  if st.mounted then
    let line := (if isUser then "You" else personaName) ++ ": " ++ text ++ "\n"
    let st' := { st with transcriptAcc := st.transcriptAcc ++ line }
    if !isUser && includes text endCallMarker then (st', some endCallDelayMs)
    else (st', none)
  else (st, none)

/-- The per-second duration tick installed while connected
(setInterval in ActiveCall). -/
def tick (d : ℕ) : ℕ := d + 1

/-- A completed Call Session Record (types.ts CallSession). -/
structure CallSession where
  id : String
  timestamp : ℕ
  playerName : String
  personaId : String
  durationSeconds : ℕ
  transcript : String
  overallScore : ℤ
  rubric : List RubricItem
  summary : String
deriving DecidableEq

/-- App.handleEndCall: bail out without a persona; otherwise build exactly
one new CallSession from the transcript the hang-up handler passed and the
grading result, with durationSeconds hard-coded to 0 as in the source, and
prepend it to the session history. -/
def handleEndCall (selectedPersona : Option Persona) (playerName : String)
    (sessions : List CallSession) (transcript : String) (grading : GradeResult)
    (now : ℕ) : Option (CallSession × List CallSession) :=
  match selectedPersona with
  | none => none
  | some persona =>
    let newSession : CallSession :=
      { id := toString now, timestamp := now, playerName := playerName,
        personaId := persona.id, durationSeconds := 0, transcript := transcript,
        overallScore := grading.score, rubric := grading.rubric,
        summary := grading.summary }
    some (newSession, newSession :: sessions)

/-! Concrete inputs used by witnesses and counterexamples. -/

/-- A client state whose output audio context is open, as after a
successful connect. -/
def outputReadyState : ClientState :=
  { initialState with outputAudioContext := some { closed := false } }

/-- A client state with one in-flight scheduled source. -/
def queuedState : ClientState :=
  { outputReadyState with
    audioQueue := [{ start := 0, duration := 1, playing := true }],
    nextStartTime := 1 }

/-- An inbound message carrying one second of audio at clock 0. -/
def msgAudioA : ServerMessage :=
  { inputTranscription := none, outputTranscription := none,
    audioDuration := some 1, interrupted := false, now := 0 }

/-- An inbound message carrying half a second of audio at clock 2. -/
def msgAudioB : ServerMessage :=
  { inputTranscription := none, outputTranscription := some "hello",
    audioDuration := some (1 / 2), interrupted := false, now := 2 }

/-- An interruption message arriving at clock 5. -/
def msgInterrupt : ServerMessage :=
  { inputTranscription := none, outputTranscription := none,
    audioDuration := none, interrupted := true, now := 5 }

/-- A connect environment where the microphone permission is denied. -/
def envMicDenied : ConnectEnv :=
  { audioContextSupported := true, micGranted := false, micTracks := [],
    sessionAccepted := true }

/-- A connect environment where every step succeeds. -/
def envAllOk : ConnectEnv :=
  { audioContextSupported := true, micGranted := true,
    micTracks := [{ enabled := true, stopped := false }], sessionAccepted := true }

/-- A grading environment with no API key configured (and a dead network,
and a parser that always fails). -/
def envGradingDown : GradingEnv :=
  { apiKey := none, response := Except.error (), parse := fun _ => none }

/-- A sample persona, with the id and name of the first catalog entry. -/
def samplePersona : Persona :=
  { id := "p1", name := "Mr. Johnson (Location)", role := "Group Leader",
    company := "School Trip", difficulty := "Hard",
    description := "Hotel location complaint", objections := [],
    systemInstruction := "You are Mr. Johnson", avatarUrl := "" }

/-- A sample successful grading result. -/
def gradeW : GradeResult :=
  { score := 72, rubric := [{ category := "Tone", score := 7, feedback := "Confident" }],
    summary := "Solid work" }

/-- The record App.handleEndCall builds for samplePersona, player Alice,
transcript of one line, gradeW and timestamp 42. -/
def recordW : CallSession :=
  { id := "42", timestamp := 42, playerName := "Alice", personaId := "p1",
    durationSeconds := 0, transcript := "You: hello\n", overallScore := 72,
    rubric := [{ category := "Tone", score := 7, feedback := "Confident" }],
    summary := "Solid work" }

/-! Helper lemmas. -/

lemma liftCursor_eq_max (a b : ℚ) : (if a < b then b else a) = max a b := by
  rcases lt_or_le a b with h | h
  · rw [if_pos h, max_eq_right h.le]
  · rw [if_neg (not_lt.mpr h), max_eq_left h]

lemma scheduleChunk_start (s : ClientState) (now dur : ℚ) :
    (scheduleChunk s now dur).2.start = max s.nextStartTime now := by
  show (if s.nextStartTime < now then now else s.nextStartTime) = _
  exact liftCursor_eq_max _ _

lemma scheduleChunk_cursor (s : ClientState) (now dur : ℚ) :
    (scheduleChunk s now dur).1.nextStartTime = (scheduleChunk s now dur).2.start + dur := rfl

lemma scheduleChunk_duration (s : ClientState) (now dur : ℚ) :
    (scheduleChunk s now dur).2.duration = dur := rfl

lemma scheduleChunk_start_ge (s : ClientState) (now dur : ℚ) :
    s.nextStartTime ≤ (scheduleChunk s now dur).2.start := by
  rw [scheduleChunk_start]; exact le_max_left _ _

lemma scheduleChunk_start_ge_now (s : ClientState) (now dur : ℚ) :
    now ≤ (scheduleChunk s now dur).2.start := by
  rw [scheduleChunk_start]; exact le_max_right _ _

lemma handleMessage_step (s : ClientState) (m : ServerMessage)
    (h : m.interrupted = false) :
    ((handleMessage s m).state = s ∧ (handleMessage s m).scheduled = none) ∨
    (∃ dur, m.audioDuration = some dur ∧
      (handleMessage s m).state = (scheduleChunk s m.now dur).1 ∧
      (handleMessage s m).scheduled = some (scheduleChunk s m.now dur).2) := by
  cases hc : s.outputAudioContext with
  | none => exact Or.inl (by constructor <;> simp [handleMessage, hc])
  | some ctx =>
    cases ha : m.audioDuration with
    | none =>
      exact Or.inl (by constructor <;> simp [handleMessage, audioPhase, hc, ha, h])
    | some dur =>
      refine Or.inr ⟨dur, rfl, ?_, ?_⟩ <;>
        simp [handleMessage, audioPhase, hc, ha, h]

lemma runMessages_nil (s : ClientState) : runMessages s [] = (s, []) := rfl

lemma runMessages_cons (s : ClientState) (m : ServerMessage) (rest : List ServerMessage) :
    runMessages s (m :: rest) =
      ((runMessages (handleMessage s m).state rest).1,
       (handleMessage s m).scheduled.toList ++ (runMessages (handleMessage s m).state rest).2) := rfl

lemma runMessages_bounds :
    ∀ (msgs : List ServerMessage) (s : ClientState),
      (∀ m ∈ msgs, m.interrupted = false ∧ 0 ≤ m.audioDuration.getD 0) →
      s.nextStartTime ≤ (runMessages s msgs).1.nextStartTime ∧
      ∀ src ∈ (runMessages s msgs).2,
        s.nextStartTime ≤ src.start ∧
        src.start + src.duration ≤ (runMessages s msgs).1.nextStartTime := by
  intro msgs
  induction msgs with
  | nil => intro s _; exact ⟨le_refl _, by simp [runMessages_nil]⟩
  | cons m rest ih =>
    intro s h
    have hm : m.interrupted = false := (h m (by simp)).1
    have hd : 0 ≤ m.audioDuration.getD 0 := (h m (by simp)).2
    have hrest : ∀ m' ∈ rest, m'.interrupted = false ∧ 0 ≤ m'.audioDuration.getD 0 :=
      fun m' hm' => h m' (by simp [hm'])
    have hIH := ih (handleMessage s m).state hrest
    rcases handleMessage_step s m hm with ⟨hst, hsc⟩ | ⟨dur, hdur, hst, hsc⟩
    · rw [runMessages_cons, hsc, hst]
      simpa using ih s hrest
    · have hdur0 : 0 ≤ dur := by
        rw [hdur] at hd; simpa using hd
      have h1 : s.nextStartTime ≤ (scheduleChunk s m.now dur).2.start :=
        scheduleChunk_start_ge s m.now dur
      have h2 : (scheduleChunk s m.now dur).1.nextStartTime =
          (scheduleChunk s m.now dur).2.start + dur := scheduleChunk_cursor s m.now dur
      rw [hst] at hIH
      rw [runMessages_cons, hsc, hst]
      constructor
      · calc s.nextStartTime ≤ (scheduleChunk s m.now dur).2.start := h1
          _ ≤ (scheduleChunk s m.now dur).2.start + dur := by linarith
          _ = (scheduleChunk s m.now dur).1.nextStartTime := h2.symm
          _ ≤ (runMessages (scheduleChunk s m.now dur).1 rest).1.nextStartTime := hIH.1
      · intro src hsrc
        simp only [Option.toList_some, List.cons_append, List.nil_append,
          List.mem_cons] at hsrc
        rcases hsrc with rfl | hsrc
        · refine ⟨h1, ?_⟩
          have hde : (scheduleChunk s m.now dur).2.duration = dur :=
            scheduleChunk_duration s m.now dur
          calc (scheduleChunk s m.now dur).2.start + (scheduleChunk s m.now dur).2.duration
              = (scheduleChunk s m.now dur).1.nextStartTime := by rw [hde, h2]
            _ ≤ (runMessages (scheduleChunk s m.now dur).1 rest).1.nextStartTime := hIH.1
        · have hb := hIH.2 src hsrc
          refine ⟨?_, hb.2⟩
          calc s.nextStartTime ≤ (scheduleChunk s m.now dur).2.start := h1
            _ ≤ (scheduleChunk s m.now dur).2.start + dur := by linarith
            _ = (scheduleChunk s m.now dur).1.nextStartTime := h2.symm
            _ ≤ src.start := hb.1

lemma runMessages_pairwise :
    ∀ (msgs : List ServerMessage) (s : ClientState),
      (∀ m ∈ msgs, m.interrupted = false ∧ 0 ≤ m.audioDuration.getD 0) →
      ((runMessages s msgs).2).Pairwise (fun a b => a.start + a.duration ≤ b.start) := by
  intro msgs
  induction msgs with
  | nil => intro s _; simp [runMessages_nil]
  | cons m rest ih =>
    intro s h
    have hm : m.interrupted = false := (h m (by simp)).1
    have hrest : ∀ m' ∈ rest, m'.interrupted = false ∧ 0 ≤ m'.audioDuration.getD 0 :=
      fun m' hm' => h m' (by simp [hm'])
    rcases handleMessage_step s m hm with ⟨hst, hsc⟩ | ⟨dur, hdur, hst, hsc⟩
    · rw [runMessages_cons, hsc, hst]
      simpa using ih s hrest
    · rw [runMessages_cons, hsc, hst]
      simp only [Option.toList_some, List.cons_append, List.nil_append]
      rw [List.pairwise_cons]
      constructor
      · intro y hy
        have hb := (runMessages_bounds rest (scheduleChunk s m.now dur).1 hrest).2 y hy
        have h2 : (scheduleChunk s m.now dur).1.nextStartTime =
            (scheduleChunk s m.now dur).2.start + dur := scheduleChunk_cursor s m.now dur
        have hde : (scheduleChunk s m.now dur).2.duration = dur :=
          scheduleChunk_duration s m.now dur
        calc (scheduleChunk s m.now dur).2.start + (scheduleChunk s m.now dur).2.duration
            = (scheduleChunk s m.now dur).1.nextStartTime := by rw [hde, h2]
          _ ≤ y.start := hb.1
      · exact ih (scheduleChunk s m.now dur).1 hrest

lemma all_stopped_sources_map (l : List Source) :
    ((l.map fun src => { src with playing := false }).all fun src => !src.playing) = true := by
  induction l with
  | nil => rfl
  | cons a l ih => simp [ih]

lemma all_stopped_tracks_map (l : List Track) :
    ((l.map fun t => { t with stopped := true }).all fun t => t.stopped) = true := by
  induction l with
  | nil => rfl
  | cons a l ih => simp [ih]

lemma disconnect_releasedAll (s : ClientState) : releasedAll (disconnect s).1 := by
  unfold releasedAll
  exact ⟨rfl, rfl, rfl, rfl, rfl, rfl, rfl, rfl⟩

/-! Claim theorems. -/

/-- Claim C1: for every sequence of inbound audio chunks handled by the
message handler with no interruption event in between, each decoded buffer
is scheduled to start exactly at the cursor (lifted to the output clock
when the cursor has fallen behind it), the cursor advances by exactly that
buffer duration, the cursor is monotonically non-decreasing, and no two
scheduled buffers overlap. -/
theorem c1_playback_cursor_monotone_and_gapless
    (s : ClientState) (msgs : List ServerMessage)
    (h : ∀ m ∈ msgs, m.interrupted = false ∧ 0 ≤ m.audioDuration.getD 0) :
    (∀ (st : ClientState) (now dur : ℚ),
        (scheduleChunk st now dur).2.start = max st.nextStartTime now ∧
        (scheduleChunk st now dur).1.nextStartTime = (scheduleChunk st now dur).2.start + dur) ∧
    s.nextStartTime ≤ (runMessages s msgs).1.nextStartTime ∧
    ((runMessages s msgs).2).Pairwise (fun a b => a.start + a.duration ≤ b.start) :=
  ⟨fun st now dur => ⟨scheduleChunk_start st now dur, scheduleChunk_cursor st now dur⟩,
   (runMessages_bounds msgs s h).1,
   runMessages_pairwise msgs s h⟩

/-- Witness for C1 on a concrete two-chunk sequence. -/
theorem c1_witness :
    outputReadyState.nextStartTime ≤
      (runMessages outputReadyState [msgAudioA, msgAudioB]).1.nextStartTime ∧
    ((runMessages outputReadyState [msgAudioA, msgAudioB]).2).Pairwise
      (fun a b => a.start + a.duration ≤ b.start) := by
  have h := c1_playback_cursor_monotone_and_gapless outputReadyState
    [msgAudioA, msgAudioB] ?_
  · exact ⟨h.2.1, h.2.2⟩
  · intro m hm
    rcases List.mem_cons.mp hm with rfl | hm
    · exact ⟨rfl, by norm_num [msgAudioA]⟩
    · rcases List.mem_singleton.mp hm with rfl
      exact ⟨rfl, by norm_num [msgAudioB]⟩

/-- Claim C2: after the message handler processes an interruption event,
the audioQueue is empty, every tracked source has been force-stopped, the
playback cursor equals the output clock, and any buffer scheduled
afterwards starts at or after both that clock value and the clock at its
own scheduling time. -/
theorem c2_interruption_resets_playback
    (s : ClientState) (m : ServerMessage) (later dur : ℚ)
    (hint : m.interrupted = true) (hctx : s.outputAudioContext.isSome = true) :
    (handleMessage s m).state.audioQueue = [] ∧
    (handleMessage s m).state.nextStartTime = m.now ∧
    (handleMessage s m).stopped =
      (audioPhase s m).1.audioQueue.map (fun src => { src with playing := false }) ∧
    ((handleMessage s m).stopped.all fun src => !src.playing) = true ∧
    m.now ≤ (scheduleChunk (handleMessage s m).state later dur).2.start ∧
    later ≤ (scheduleChunk (handleMessage s m).state later dur).2.start := by
  obtain ⟨ctx, hc⟩ := Option.isSome_iff_exists.mp hctx
  have hqueue : (handleMessage s m).state.audioQueue = [] := by
    simp [handleMessage, hc, hint]
  have hcur : (handleMessage s m).state.nextStartTime = m.now := by
    simp [handleMessage, hc, hint]
  refine ⟨hqueue, hcur, ?_, ?_, ?_, ?_⟩
  · simp [handleMessage, hc, hint]
  · have hstop : (handleMessage s m).stopped =
        (audioPhase s m).1.audioQueue.map (fun src => { src with playing := false }) := by
      simp [handleMessage, hc, hint]
    rw [hstop]
    exact all_stopped_sources_map _
  · rw [← hcur]; exact scheduleChunk_start_ge _ later dur
  · exact scheduleChunk_start_ge_now _ later dur

/-- Witness for C2 on a concrete interruption over a nonempty queue. -/
theorem c2_witness :
    (handleMessage queuedState msgInterrupt).state.audioQueue = [] ∧
    (handleMessage queuedState msgInterrupt).state.nextStartTime = msgInterrupt.now ∧
    (handleMessage queuedState msgInterrupt).stopped =
      (audioPhase queuedState msgInterrupt).1.audioQueue.map
        (fun src => { src with playing := false }) ∧
    ((handleMessage queuedState msgInterrupt).stopped.all fun src => !src.playing) = true ∧
    msgInterrupt.now ≤
      (scheduleChunk (handleMessage queuedState msgInterrupt).state 7 2).2.start ∧
    (7 : ℚ) ≤ (scheduleChunk (handleMessage queuedState msgInterrupt).state 7 2).2.start :=
  c2_interruption_resets_playback queuedState msgInterrupt 7 2 rfl rfl

/-- Claim C3: disconnect is total on every client state and on completion
every owned resource is released: the queued sources are stopped and the
queue cleared, the source node and script processor are disconnected and
nulled, every stream track is stopped and the stream nulled, the session
promise is consumed (close is called exactly on a resolved session, a
rejection is absorbed), both audio contexts are closed when still open and
nulled, isConnected is cleared, and a repeated disconnect reaches the same
state. -/
theorem c3_disconnect_releases_all_resources (s : ClientState) :
    (disconnect s).1.audioQueue = [] ∧
    (disconnect s).2.stoppedSources =
      s.audioQueue.map (fun src => { src with playing := false }) ∧
    ((disconnect s).2.stoppedSources.all fun src => !src.playing) = true ∧
    (disconnect s).1.sourceNode = none ∧
    (disconnect s).1.scriptProcessor = none ∧
    (disconnect s).2.sourceNodeDisconnected = s.sourceNode.isSome ∧
    (disconnect s).2.scriptProcessorDisconnected = s.scriptProcessor.isSome ∧
    (disconnect s).1.stream = none ∧
    (disconnect s).2.stoppedTracks = (s.stream.getD []).map (fun t => { t with stopped := true }) ∧
    ((disconnect s).2.stoppedTracks.all fun t => t.stopped) = true ∧
    (disconnect s).1.sessionPromise = none ∧
    (disconnect s).2.sessionCloseCalled =
      (match s.sessionPromise with
       | some (SessionOutcome.resolved _) => true
       | _ => false) ∧
    (disconnect s).2.inputCtxCloseCalled =
      (match s.inputAudioContext with
       | some ctx => !ctx.closed
       | none => false) ∧
    (disconnect s).2.outputCtxCloseCalled =
      (match s.outputAudioContext with
       | some ctx => !ctx.closed
       | none => false) ∧
    (disconnect s).1.inputAudioContext = none ∧
    (disconnect s).1.outputAudioContext = none ∧
    (disconnect s).1.isConnected = false ∧
    (disconnect (disconnect s).1).1 = (disconnect s).1 := by
  refine ⟨rfl, rfl, ?_, rfl, rfl, rfl, rfl, rfl, rfl, ?_, rfl, rfl, rfl, rfl, rfl, rfl, rfl, rfl⟩
  · exact all_stopped_sources_map s.audioQueue
  · exact all_stopped_tracks_map (s.stream.getD [])

/-- Claim C4 counterexample: with a fresh client and the microphone
permission denied, connect surfaces the failure while both audio contexts
it acquired are still open, so the resources acquired before the failure
point are not released before the failure is surfaced. -/
theorem c4_counterexample_mic_denied_leaves_contexts_open :
    (connect initialState envMicDenied).2.2 = some ConnectError.micDenied ∧
    (connect initialState envMicDenied).1.inputAudioContext = some { closed := false } ∧
    (connect initialState envMicDenied).1.outputAudioContext = some { closed := false } ∧
    ¬ releasedAll (connect initialState envMicDenied).1 := by
  refine ⟨rfl, rfl, rfl, ?_⟩
  intro h
  exact Option.noConfusion h.1

/-- Claim C4 as amended: when connect fails, the call enters the error
state, the resources acquired before the failure point remain held when
the failure is surfaced, and the subsequent disconnect releases every one
of them. -/
theorem c4_connect_failure_cleanup_deferred (env : ConnectEnv)
    (h : (connect initialState env).2.2.isSome = true) :
    (startCall true env).1 = CallStatus.error ∧
    startCall false env = (CallStatus.error, none) ∧
    releasedAll ((disconnect (connect initialState env).1).1) := by
  refine ⟨?_, rfl, disconnect_releasedAll _⟩
  simp [startCall, h]

/-- Witness for the amended C4 at the concrete mic-denied environment. -/
theorem c4_witness_mic_denied :
    (connect initialState envMicDenied).2.2.isSome = true ∧
    ((startCall true envMicDenied).1 = CallStatus.error ∧
     startCall false envMicDenied = (CallStatus.error, none) ∧
     releasedAll ((disconnect (connect initialState envMicDenied).1).1)) :=
  ⟨rfl, c4_connect_failure_cleanup_deferred envMicDenied rfl⟩

/-- Claim C5: whenever the grading call fails (missing API key, request
error, or unparseable response), gradeCall resolves with the neutral
default: score 50, which lies in the closed interval 0 to 100, and a
non-empty summary, for every transcript, persona and language. -/
theorem c5_grading_failure_yields_default
    (env : GradingEnv) (transcript : String) (persona : Persona) (lang : Language)
    (h : gradingFailed env = true) :
    gradeCall env transcript persona lang = gradingErrorResult ∧
    gradingErrorResult.score = 50 ∧
    0 ≤ gradingErrorResult.score ∧ gradingErrorResult.score ≤ 100 ∧
    gradingErrorResult.summary ≠ "" := by
  refine ⟨?_, rfl, by norm_num [gradingErrorResult], by norm_num [gradingErrorResult], by decide⟩
  cases hk : env.apiKey with
  | none => simp [gradeCall, hk]
  | some k =>
    cases hr : env.response with
    | error e => simp [gradeCall, hk, hr]
    | ok text =>
      have hp : (env.parse (responseTextOrEmpty text)).isNone = true := by
        have := h
        rw [gradingFailed, hk, hr] at this
        exact this
      rw [Option.isNone_iff_eq_none] at hp
      simp [gradeCall, hk, hr, hp]

/-- Witness for C5 at a concrete failing grading environment. -/
theorem c5_witness :
    gradingFailed envGradingDown = true ∧
    (gradeCall envGradingDown "transcript" samplePersona Language.en = gradingErrorResult ∧
     gradingErrorResult.score = 50 ∧
     0 ≤ gradingErrorResult.score ∧ gradingErrorResult.score ≤ 100 ∧
     gradingErrorResult.summary ≠ "") :=
  ⟨rfl, c5_grading_failure_yields_default envGradingDown "transcript" samplePersona
    Language.en rfl⟩

/-- Claim C6, evidence of the code bug: a completed call whose per-second
tick has tracked 5 seconds of connected time produces exactly one Call
Session Record that carries the persona reference, transcript, score and
rubric — but its durationSeconds field is the hard-coded 0, not the
tracked elapsed duration. -/
theorem c6_record_duration_always_zero :
    tick^[5] 0 = 5 ∧
    handleEndCall (some samplePersona) "Alice" [] "You: hello\n" gradeW 42 =
      some (recordW, [recordW]) ∧
    recordW.personaId = samplePersona.id ∧
    recordW.transcript = "You: hello\n" ∧
    recordW.overallScore = gradeW.score ∧
    recordW.rubric = gradeW.rubric ∧
    recordW.summary = gradeW.summary ∧
    recordW.durationSeconds = 0 ∧
    recordW.durationSeconds ≠ tick^[5] 0 := by
  refine ⟨rfl, ?_, rfl, rfl, rfl, rfl, rfl, rfl, by decide⟩
  rfl

/-- Claim C7: while the component is mounted, a persona-side transcript
whose text contains the end-of-call marker schedules hang-up after exactly
the fixed 3000 millisecond delay (a positive delay, so not immediately),
and user-side events or marker-less text schedule nothing. -/
theorem c7_marker_schedules_delayed_termination
    (st : ActiveCallState) (personaName text : String) (isUser : Bool)
    (h : st.mounted = true) :
    ((onTranscript st personaName text isUser).2 =
      if !isUser && includes text endCallMarker then some endCallDelayMs else none) ∧
    (isUser = true → (onTranscript st personaName text isUser).2 = none) ∧
    (includes text endCallMarker = false →
      (onTranscript st personaName text isUser).2 = none) ∧
    endCallDelayMs = 3000 ∧ 0 < endCallDelayMs := by
  refine ⟨?_, ?_, ?_, rfl, by decide⟩
  · rw [onTranscript, if_pos h]
    cases hcond : (!isUser && includes text endCallMarker) <;> simp [hcond]
  · intro hu
    rw [onTranscript, if_pos h]
    simp [hu]
  · intro hmk
    rw [onTranscript, if_pos h]
    simp [hmk]

/-- Witness for C7: a marker-bearing persona line schedules the 3000
millisecond hang-up, and a user line does not. -/
theorem c7_witness :
    (onTranscript { mounted := true, transcriptAcc := "" } "Mr. Johnson (Location)"
      "This training session has now come to a close. [[END_CALL]]" false).2 =
      some 3000 ∧
    (onTranscript { mounted := true, transcriptAcc := "" } "Mr. Johnson (Location)"
      "Thanks for calling" true).2 = none := by
  constructor
  · have h := (c7_marker_schedules_delayed_termination
      { mounted := true, transcriptAcc := "" } "Mr. Johnson (Location)"
      "This training session has now come to a close. [[END_CALL]]" false rfl).1
    rw [h]
    rfl
  · exact (c7_marker_schedules_delayed_termination
      { mounted := true, transcriptAcc := "" } "Mr. Johnson (Location)"
      "Thanks for calling" true rfl).2.1 rfl

/-- Claim C8: setMute only rewrites the enabled flag of the stream tracks
to the negation of the mute flag, never fails, and leaves every other
field of the client untouched; muting then unmuting turns every track
enabled flag back on without re-acquiring the stream. -/
theorem c8_mute_roundtrip_frame (s : ClientState) (b : Bool) :
    (setMute (setMute s true) false).stream =
      s.stream.map (fun tracks => tracks.map fun t => { t with enabled := true }) ∧
    (setMute s b).stream =
      s.stream.map (fun tracks => tracks.map fun t => { t with enabled := !b }) ∧
    (setMute s b).stream.isSome = s.stream.isSome ∧
    (setMute s b).inputAudioContext = s.inputAudioContext ∧
    (setMute s b).outputAudioContext = s.outputAudioContext ∧
    (setMute s b).nextStartTime = s.nextStartTime ∧
    (setMute s b).sessionPromise = s.sessionPromise ∧
    (setMute s b).scriptProcessor = s.scriptProcessor ∧
    (setMute s b).sourceNode = s.sourceNode ∧
    (setMute s b).audioQueue = s.audioQueue ∧
    (setMute s b).isConnected = s.isConnected := by
  cases hs : s.stream with
  | none => simp [setMute, hs]
  | some tracks =>
    refine ⟨?_, ?_, ?_, ?_, ?_, ?_, ?_, ?_, ?_, ?_, ?_⟩ <;>
      simp [setMute, hs, List.map_map, Function.comp]

/-- Claim C9: the capture callback reports a visualizer level exactly when
the frame RMS exceeds the 0.01 noise floor, and every reported level
equals min(1, rms * 5), the normalized loudness estimate of the frame,
which lies in the closed interval 0 to 1. -/
theorem c9_capture_visualizer_rms (frame : List ℝ) :
    ((captureVisualizerLevel frame).isSome = true ↔ rms frame > 1 / 100) ∧
    ∀ l : ℝ, captureVisualizerLevel frame = some l →
      l = min 1 (rms frame * 5) ∧ 0 ≤ l ∧ l ≤ 1 := by
  have hnn : 0 ≤ rms frame := Real.sqrt_nonneg _
  by_cases h : rms frame > 1 / 100
  · refine ⟨by simp [captureVisualizerLevel, h], ?_⟩
    intro l hl
    rw [captureVisualizerLevel, if_pos h, Option.some_inj] at hl
    refine ⟨hl.symm, ?_, ?_⟩
    · rw [← hl]
      exact le_min (by norm_num) (by positivity)
    · rw [← hl]
      exact min_le_left _ _
  · refine ⟨by simp [captureVisualizerLevel, h], ?_⟩
    intro l hl
    rw [captureVisualizerLevel, if_neg h] at hl
    exact absurd hl (Option.noConfusion)

/-- Witness for C9 on a concrete loud frame of four full-scale samples. -/
theorem c9_witness :
    (captureVisualizerLevel [(1 : ℝ), 1, 1, 1]).isSome = true := by
  have hr : rms [(1 : ℝ), 1, 1, 1] = 1 := by
    rw [rms]
    norm_num
  exact (c9_capture_visualizer_rms [(1 : ℝ), 1, 1, 1]).1.mpr (by rw [hr]; norm_num)

/-- Claim C10: calling connect while already connected is a pure no-op:
no acquisition step runs, no error is surfaced, and the state is returned
unchanged. -/
theorem c10_connect_noop_when_connected (s : ClientState) (env : ConnectEnv)
    (h : s.isConnected = true) :
    connect s env = (s, [], none) := by
  rw [connect, if_pos h]

/-- Witness for C10 at the state a successful connect produces. -/
theorem c10_witness :
    (connect initialState envAllOk).1.isConnected = true ∧
    connect (connect initialState envAllOk).1 envAllOk =
      ((connect initialState envAllOk).1, [], none) :=
  ⟨rfl, c10_connect_noop_when_connected (connect initialState envAllOk).1 envAllOk rfl⟩

end CallerGuy
